import Mathlib

/-!
# Verification of the Loyalty repository core

Shallow embedding of the loyalty system's ledger, stream processor,
event router, RFM analytics and tier engine, translated from the Go
sources, together with proofs settling the specification claims.

Go `uint64` counters are modelled as `Nat` with explicit reduction
modulo `2 ^ 64` where the code performs 64-bit arithmetic. Go `float64`
quantities (money, multipliers) are modelled as `ℚ`; Go `int` as `ℤ`.
Times are modelled as integer nanosecond counts. Nondeterministic
inputs of the code (random IDs, the current clock) are passed as
explicit parameters.
-/

/-- 2^64, the modulus of Go `uint64` arithmetic. -/
def U64 : ℕ := 2 ^ 64

/-- Go `uint64` addition: wraps modulo `2^64`. -/
def addU64 (a b : ℕ) : ℕ := (a + b) % U64

/-- Go `uint64` subtraction `a - b`: wraps modulo `2^64`
(meaningful for operands `< 2^64`). -/
def subU64 (a b : ℕ) : ℕ := (a + U64 - b % U64) % U64

/-! ## Ledger data model (`services/ledger/internal/models`) -/

/-- `models.Account` from the ledger service. `debitsPosted` and
`creditsPosted` are Go `uint64` counters. -/
structure Account where
  id : String
  orgID : String
  customerID : String
  accountType : ℕ
  code : ℕ
  debitsPosted : ℕ
  creditsPosted : ℕ
  timestamp : ℕ
  deriving Repr, DecidableEq

/-- `models.Transfer` from the ledger service. -/
structure Transfer where
  id : String
  debitAccountID : String
  creditAccountID : String
  amount : ℕ
  code : ℕ
  reference : String
  timestamp : ℕ
  deriving Repr, DecidableEq

/-- `models.CreateTransferRequest` (after JSON binding): `amount` is a
Go `uint64`. -/
structure CreateTransferRequest where
  orgID : String
  customerID : String
  transactionType : String
  amount : ℕ
  code : ℕ
  reference : String
  deriving Repr, DecidableEq

/-- `models.TransferResponse`. -/
structure TransferResponse where
  transferID : String
  status : String
  deriving Repr, DecidableEq

/-- The mutable state of `MockTigerBeetleRepo`: the `accounts` map
(keyed by account ID string) and the list of created transfers. -/
structure LedgerState where
  accounts : String → Option Account
  transfers : List Transfer

/-- The empty repository, as built by `NewMockTigerBeetleRepo`. -/
def LedgerState.init : LedgerState :=
  { accounts := fun _ => none, transfers := [] }

/-- `generateOrgLiabilityAccount`. -/
def generateOrgLiabilityAccount (orgID : String) : String :=
  "liability_" ++ orgID

/-- `generateCustomerPointsAccount`. -/
def generateCustomerPointsAccount (orgID customerID : String) : String :=
  "points_" ++ orgID ++ "_" ++ customerID

/-- `generateCustomerStampsAccount`. -/
def generateCustomerStampsAccount (orgID customerID : String) : String :=
  "stamps_" ++ orgID ++ "_" ++ customerID

/-- `updateAccountBalance`: looks up the account, creating a
zero-counter account when absent, then increments the debit or credit
counter by `amount` (uint64 addition). -/
def updateAccountBalance (accounts : String → Option Account)
    (accountID : String) (amount : ℕ) (isDebit : Bool) (now : ℕ) :
    String → Option Account :=
  let account :=
    match accounts accountID with
    | some a => a
    | none =>
        { id := accountID, orgID := "", customerID := "", accountType := 0,
          code := 0, debitsPosted := 0, creditsPosted := 0, timestamp := now }
  let account' :=
    if isDebit then
      { account with debitsPosted := addU64 account.debitsPosted amount }
    else
      { account with creditsPosted := addU64 account.creditsPosted amount }
  fun k => if k = accountID then some account' else accounts k

/-- The debit account chosen by `MockTigerBeetleRepo.CreateTransfer`:
the org liability account, swapped with the customer points account
for the two exact redemption transaction types. -/
def transferDebitAccount (req : CreateTransferRequest) : String :=
  if req.transactionType = "points_redemption" ∨
      req.transactionType = "stamps_redemption" then
    generateCustomerPointsAccount req.orgID req.customerID
  else
    generateOrgLiabilityAccount req.orgID

/-- The credit account chosen by `MockTigerBeetleRepo.CreateTransfer`. -/
def transferCreditAccount (req : CreateTransferRequest) : String :=
  if req.transactionType = "points_redemption" ∨
      req.transactionType = "stamps_redemption" then
    generateOrgLiabilityAccount req.orgID
  else
    generateCustomerPointsAccount req.orgID req.customerID

/-- `MockTigerBeetleRepo.CreateTransfer`. The random transfer ID and
the clock are parameters. Records the transfer, then debits the debit
account and credits the credit account by `req.amount`. -/
def CreateTransfer (s : LedgerState) (req : CreateTransferRequest)
    (transferID : String) (now : ℕ) : LedgerState × TransferResponse :=
  let debitAccountID := transferDebitAccount req
  let creditAccountID := transferCreditAccount req
  let transfer : Transfer :=
    { id := transferID, debitAccountID := debitAccountID,
      creditAccountID := creditAccountID, amount := req.amount,
      code := req.code, reference := req.reference, timestamp := now }
  let accounts1 := updateAccountBalance s.accounts debitAccountID req.amount true now
  let accounts2 := updateAccountBalance accounts1 creditAccountID req.amount false now
  ({ accounts := accounts2, transfers := transfer :: s.transfers },
   { transferID := transferID, status := "success" })

/-- `MockTigerBeetleRepo.GetBalance`: never fails; missing accounts
contribute a zero balance; balances are the uint64 difference
`creditsPosted - debitsPosted`. Returns `(points, stamps)`. -/
def GetBalance (s : LedgerState) (orgID customerID : String) :
    Except String (ℕ × ℕ) :=
  let pointsAccountID := generateCustomerPointsAccount orgID customerID
  let stampsAccountID := generateCustomerStampsAccount orgID customerID
  let points :=
    match s.accounts pointsAccountID with
    | some a => subU64 a.creditsPosted a.debitsPosted
    | none => 0
  let stamps :=
    match s.accounts stampsAccountID with
    | some a => subU64 a.creditsPosted a.debitsPosted
    | none => 0
  Except.ok (points, stamps)

/-- The debits counter of an optional account (0 when absent),
matching the lazily-created zero account of `updateAccountBalance`. -/
def debitsOf : Option Account → ℕ
  | some a => a.debitsPosted
  | none => 0

/-- The credits counter of an optional account (0 when absent). -/
def creditsOf : Option Account → ℕ
  | some a => a.creditsPosted
  | none => 0

/-! ## Ledger HTTP handler (`services/ledger/internal/handlers`)

`LedgerHandler.CreateTransfer` binds the JSON body into
`models.CreateTransferRequest` with `ShouldBindJSON` and returns 400 on
a binding error, before any repository call. The JSON step is
modelled exactly as Go's `encoding/json` + gin binding behave on this
struct: a negative number (or one `≥ 2^64`) cannot be unmarshalled
into the `uint64` `amount` field, absent fields take the zero value,
and the `binding:"required"` tags on `org_id`, `transaction_type` and
`amount` reject the zero value of those fields. -/

/-- The JSON body of a `POST /transfers` request: optional fields with
`amount` as an arbitrary JSON integer. -/
structure RawTransferRequest where
  orgID : Option String
  customerID : Option String
  transactionType : Option String
  amount : Option ℤ
  code : Option ℤ
  reference : Option String
  deriving Repr, DecidableEq

/-- `ShouldBindJSON` into `models.CreateTransferRequest`: JSON decoding
into the `uint64`/`uint16` fields, zero-valued defaults for absent
fields, then the `binding:"required"` validation on `org_id`,
`transaction_type` and `amount`. -/
def bindCreateTransferRequest (raw : RawTransferRequest) :
    Except String CreateTransferRequest :=
  let amountInt := raw.amount.getD 0
  let codeInt := raw.code.getD 0
  if amountInt < 0 ∨ (2 ^ 64 : ℤ) ≤ amountInt then
    Except.error "json: cannot unmarshal number into field amount of type uint64"
  else if codeInt < 0 ∨ (2 ^ 16 : ℤ) ≤ codeInt then
    Except.error "json: cannot unmarshal number into field code of type uint16"
  else
    let req : CreateTransferRequest :=
      { orgID := raw.orgID.getD "", customerID := raw.customerID.getD "",
        transactionType := raw.transactionType.getD "",
        amount := amountInt.toNat, code := codeInt.toNat,
        reference := raw.reference.getD "" }
    if req.orgID = "" then
      Except.error "Key: OrgID Error:Field validation for OrgID failed on the required tag"
    else if req.transactionType = "" then
      Except.error "Key: TransactionType Error:Field validation failed on the required tag"
    else if req.amount = 0 then
      Except.error "Key: Amount Error:Field validation for Amount failed on the required tag"
    else
      Except.ok req

/-- `LedgerHandler.CreateTransfer`: 400 with the repository untouched
on a binding error, otherwise the repository call followed by 201.
(The mock repository never returns an error, so the 500 branch of the
handler is unreachable.) Returns the new state and the HTTP status. -/
def CreateTransferHandler (s : LedgerState) (raw : RawTransferRequest)
    (transferID : String) (now : ℕ) : LedgerState × ℕ :=
  match bindCreateTransferRequest raw with
  | Except.error _ => (s, 400)
  | Except.ok req => ((CreateTransfer s req transferID now).1, 201)

/-! ## Stream processor (`services/stream/internal/processor`) -/

/-- The organization settings consulted by the accrual engine
(`org.Settings`): Go `float64` points-per-dollar as `ℚ`, Go `int`
stamps-per-visit as `ℤ`. -/
structure OrgSettings where
  pointsPerDollar : ℚ
  stampsPerVisit : ℤ
  deriving Repr, DecidableEq

/-- `models.LoyaltyAction` payload. -/
structure LoyaltyAction where
  actionType : String
  points : ℤ
  stamps : ℤ
  rewardID : String
  reference : String
  deriving Repr, DecidableEq

/-- The fields of `models.ProcessingResult` relevant to processing
outcomes. -/
structure ProcessingResult where
  success : Bool
  error : String
  pointsEarned : ℤ
  stampsEarned : ℤ
  actions : List String
  deriving Repr, DecidableEq

/-- One call to the Ledger client (`CreatePointsTransfer` /
`CreateStampsTransfer`): the transfer request it posts. -/
structure LedgerCall where
  transactionType : String
  amount : ℕ
  code : ℕ
  reference : String
  deriving Repr, DecidableEq

/-- `EventProcessor.calculatePoints`: zero when `pointsPerDollar ≤ 0`,
otherwise `int(math.Floor(amount * pointsPerDollar))`. -/
def calculatePoints (amount pointsPerDollar : ℚ) : ℤ :=
  if pointsPerDollar ≤ 0 then 0
  else ⌊amount * pointsPerDollar⌋

/-- Lines 82–83 of `processPOSTransaction`: the earned quantities
computed for a POS transaction, `(pointsEarned, stampsEarned)`. -/
def posEarnedQuantities (amount : ℚ) (org : OrgSettings) : ℤ × ℤ :=
  (calculatePoints amount org.pointsPerDollar, org.stampsPerVisit)

/-- `EventProcessor.processLoyaltyAction` (ledger calls assumed to
succeed): returns the processing result and the ledger transfers
posted. Only `manual_points` and `bonus_stamps` are recognized; each
posts one transfer when its quantity is positive (the Go `uint64`
cast of a positive `int` is its value); every other action type takes
the `default` branch: a failed result and no transfer. -/
def processLoyaltyAction (action : LoyaltyAction) :
    ProcessingResult × List LedgerCall :=
  let result0 : ProcessingResult :=
    { success := false, error := "", pointsEarned := 0, stampsEarned := 0,
      actions := [] }
  if action.actionType = "manual_points" then
    if 0 < action.points then
      ({ result0 with
          success := true
          pointsEarned := action.points
          actions := ["manual award"] },
       [{ transactionType := "points_accrual", amount := action.points.toNat,
          code := 1, reference := action.reference }])
    else
      ({ result0 with success := true }, [])
  else if action.actionType = "bonus_stamps" then
    if 0 < action.stamps then
      ({ result0 with
          success := true
          stampsEarned := action.stamps
          actions := ["bonus stamps"] },
       [{ transactionType := "stamps_accrual", amount := action.stamps.toNat,
          code := 2, reference := action.reference }])
    else
      ({ result0 with success := true }, [])
  else
    ({ result0 with
        success := false
        error := "unknown loyalty action type: " ++ action.actionType }, [])

/-! ## Event router (`cmd/processor/main.go`) -/

/-- The inner loop of `shouldProcessTopic` for a wildcard pattern:
the split pattern and topic must have the same number of segments and
each pattern segment must be `*` or equal to the topic segment. -/
def matchSegments : List String → List String → Bool
  | [], [] => true
  | p :: ps, t :: ts => (p = "*" || p = t) && matchSegments ps ts
  | _, _ => false

/-- Go `strings.Split(s, ".")`: split on every dot, keeping empty
segments (`""` splits to `[""]`), realized on the character list. -/
def splitDot (s : String) : List String :=
  (s.data.splitOn '.').map List.asString

/-- One iteration of `shouldProcessTopic`: wildcard patterns
(`strings.Contains(pattern, "*")`) are matched segment-wise after
splitting on `.`, other patterns by string equality. -/
def patternMatchesTopic (pattern topic : String) : Bool :=
  if pattern.data.contains '*' then
    matchSegments (splitDot pattern) (splitDot topic)
  else
    topic == pattern

/-- `shouldProcessTopic`. -/
def shouldProcessTopic (topic : String) (patterns : List String) : Bool :=
  patterns.any fun pattern => patternMatchesTopic pattern topic

/-! ## RFM analytics (`services/analytics/internal/rfm` and the RFM
consumer `processMessage`) -/

/-- Go float-to-int conversion of an exact rational: truncation toward
zero. -/
def goTrunc (q : ℚ) : ℤ := if 0 ≤ q then ⌊q⌋ else ⌈q⌉

/-- `int(now.Sub(t).Hours() / 24)`: the nanosecond difference
converted to hours, divided by 24 and truncated (times are modelled as
nanosecond counts, the arithmetic as exact rationals). -/
def goDaysSince (now t : ℤ) : ℤ :=
  goTrunc (((now - t : ℤ) : ℚ) / (3600 * 10 ^ 9) / 24)

/-- `models.CustomerActivity` of the analytics service. -/
structure CustomerActivity where
  orgID : String
  locationID : String
  customerID : String
  transactionDate : ℤ
  amount : ℚ
  firstTransaction : ℤ
  lastTransaction : ℤ
  totalTransactions : ℤ
  totalSpent : ℚ
  deriving Repr, DecidableEq

/-- `models.RFMQuintiles`. -/
structure RFMQuintiles where
  orgID : String
  recencyQuintiles : List ℤ
  frequencyQuintiles : List ℤ
  monetaryQuintiles : List ℚ
  calculatedAt : ℤ
  deriving Repr, DecidableEq

/-- The index computed inside `calculateIntQuintiles` /
`calculateFloatQuintiles` for boundary `i` of a sorted list of length
`n`: `int(math.Ceil(percentile*float64(n))) - 1` with
`percentile = float64(i+1) * 0.2`, clamped to `n - 1` when it reaches
`n`. (The Go float arithmetic is modelled as exact rational
arithmetic; the functions are only invoked with `n ≥ 5`, for which the
index is in bounds.) -/
def quintileIndex (n i : ℕ) : ℕ :=
  if (n : ℤ) ≤ ⌈((i : ℚ) + 1) * 0.2 * (n : ℚ)⌉ - 1 then n - 1
  else (⌈((i : ℚ) + 1) * 0.2 * (n : ℚ)⌉ - 1).toNat

/-- The shared body of `calculateIntQuintiles` and
`calculateFloatQuintiles`: sort ascending (`sort.Ints` /
`sort.Float64s`; on a linear order the ascending rearrangement is
unique, so any correct sort is the same function), then read off the
five boundary values. -/
def calculateQuintileList {α : Type} [LinearOrder α] (dflt : α)
    (values : List α) : List α :=
  let sorted := values.insertionSort (· ≤ ·)
  (List.range 5).map fun i => sorted.getD (quintileIndex sorted.length i) dflt

/-- `RFMCalculator.calculateIntQuintiles`. -/
def calculateIntQuintiles (values : List ℤ) : List ℤ :=
  calculateQuintileList 0 values

/-- `RFMCalculator.calculateFloatQuintiles`. -/
def calculateFloatQuintiles (values : List ℚ) : List ℚ :=
  calculateQuintileList 0 values

/-- `RFMCalculator.getDefaultQuintiles`. -/
def getDefaultQuintiles (orgID : String) (now : ℤ) : RFMQuintiles :=
  { orgID := orgID
    recencyQuintiles := [7, 30, 90, 180, 365]
    frequencyQuintiles := [1, 2, 5, 10, 20]
    monetaryQuintiles := [10, 25, 50, 100, 250]
    calculatedAt := now }

/-- `RFMCalculator.CalculateQuintilesForOrg`, applied to the
activities fetched for the org (the storage error path is outside this
model): defaults below 5 customers, otherwise quintiles of
days-since-last / transaction count / total spent. -/
def CalculateQuintilesForOrg (orgID : String)
    (activities : List CustomerActivity) (now : ℤ) : RFMQuintiles :=
  if activities.length < 5 then getDefaultQuintiles orgID now
  else
    { orgID := orgID
      recencyQuintiles :=
        calculateIntQuintiles (activities.map fun a => goDaysSince now a.lastTransaction)
      frequencyQuintiles :=
        calculateIntQuintiles (activities.map fun a => a.totalTransactions)
      monetaryQuintiles :=
        calculateFloatQuintiles (activities.map fun a => a.totalSpent)
      calculatedAt := now }

/-- The **in-memory** `CustomerActivity` record built by the RFM
consumer's `processMessage` and passed to the storage: the fetched
record (or the fresh record built on a lookup error) advanced by one
transaction. `first_transaction` is pulled back when the event
predates it; `last_transaction` is set to the event's timestamp.
This is *not* the stored record: `UpdateCustomerActivity` persists
`first_transaction` only on insert, so the pull-back is never
written back. -/
def updateCustomerActivity (orgID customerID : String)
    (existing : Option CustomerActivity) (txnTimestamp : ℤ) (txnAmount : ℚ) :
    CustomerActivity :=
  let base :=
    match existing with
    | some a => a
    | none =>
        { orgID := orgID, locationID := "", customerID := customerID,
          transactionDate := 0, amount := 0,
          firstTransaction := txnTimestamp, lastTransaction := txnTimestamp,
          totalTransactions := 0, totalSpent := 0 }
  let activity : CustomerActivity :=
    { orgID := orgID, locationID := "", customerID := customerID,
      transactionDate := txnTimestamp, amount := txnAmount,
      firstTransaction := base.firstTransaction,
      lastTransaction := txnTimestamp,
      totalTransactions := base.totalTransactions + 1,
      totalSpent := base.totalSpent + txnAmount }
  if txnTimestamp < base.firstTransaction then
    { activity with firstTransaction := txnTimestamp }
  else
    activity

/-- `MongoStorage.UpdateCustomerActivity`: the upsert that persists
the in-memory `activity`. `$set` writes the ids, `last_transaction`,
`total_transactions` and `total_spent`; `first_transaction` is written
only under `$setOnInsert`, so an update of an existing stored record
keeps its insert-time `first_transaction` (and its other unwritten
fields); `transaction_date` and `amount` are never written (zero
values on a freshly inserted document when decoded back). -/
def UpdateCustomerActivity (stored : Option CustomerActivity)
    (activity : CustomerActivity) : CustomerActivity :=
  match stored with
  | none =>
      { orgID := activity.orgID, locationID := activity.locationID,
        customerID := activity.customerID, transactionDate := 0, amount := 0,
        firstTransaction := activity.firstTransaction,
        lastTransaction := activity.lastTransaction,
        totalTransactions := activity.totalTransactions,
        totalSpent := activity.totalSpent }
  | some st =>
      { orgID := activity.orgID, locationID := activity.locationID,
        customerID := activity.customerID,
        transactionDate := st.transactionDate, amount := st.amount,
        firstTransaction := st.firstTransaction,
        lastTransaction := activity.lastTransaction,
        totalTransactions := activity.totalTransactions,
        totalSpent := activity.totalSpent }

/-- The stored `CustomerActivity` record after `processMessage`
handles one transaction event for `(orgID, customerID)`: the in-memory
record built from the stored one, persisted through the storage's
upsert. -/
def processMessageStoredActivity (orgID customerID : String)
    (stored : Option CustomerActivity) (txnTimestamp : ℤ) (txnAmount : ℚ) :
    CustomerActivity :=
  UpdateCustomerActivity stored
    (updateCustomerActivity orgID customerID stored txnTimestamp txnAmount)

/-! ## Tier engine (`services/analytics/internal/tiers`) -/

/-- `tiers.TierRule`. -/
structure TierRule where
  name : String
  level : ℤ
  minSpentLifetime : ℚ
  minSpentYear : ℚ
  minVisitsLifetime : ℤ
  minVisitsYear : ℤ
  pointsMultiplier : ℚ
  benefits : List String
  deriving Repr, DecidableEq

/-- `tiers.CustomerMetrics`. -/
structure CustomerMetrics where
  orgID : String
  locationID : String
  customerID : String
  totalSpent : ℚ
  totalVisits : ℤ
  spentThisYear : ℚ
  visitsThisYear : ℤ
  spentThisMonth : ℚ
  visitsThisMonth : ℤ
  lastTransaction : ℤ
  transactionAmount : ℚ
  deriving Repr, DecidableEq

/-- `tiers.CustomerTier`. -/
structure CustomerTier where
  orgID : String
  locationID : String
  customerID : String
  currentTier : String
  previousTier : String
  tierSince : ℤ
  nextTier : String
  progressToNext : ℚ
  totalSpent : ℚ
  totalVisits : ℤ
  spentThisYear : ℚ
  visitsThisYear : ℤ
  spentThisMonth : ℚ
  visitsThisMonth : ℤ
  lastTransaction : ℤ
  pointsMultiplier : ℚ
  benefits : List String
  calculatedAt : ℤ
  updatedAt : ℤ
  deriving Repr, DecidableEq

/-- `tiers.TierUpgrade`. -/
structure TierUpgrade where
  orgID : String
  customerID : String
  fromTier : String
  toTier : String
  triggeredBy : String
  triggerValue : ℚ
  upgradedAt : ℤ
  notified : Bool
  deriving Repr, DecidableEq

/-- `tiers.GetDefaultTierRules` (color/icon fields omitted). -/
def GetDefaultTierRules : List TierRule :=
  [{ name := "Bronze", level := 1, minSpentLifetime := 0, minSpentYear := 0,
     minVisitsLifetime := 0, minVisitsYear := 0, pointsMultiplier := 1,
     benefits := ["Basic rewards", "Birthday bonus"] },
   { name := "Silver", level := 2, minSpentLifetime := 250, minSpentYear := 100,
     minVisitsLifetime := 5, minVisitsYear := 3, pointsMultiplier := 1.25,
     benefits := ["25% bonus points", "Priority support", "Birthday bonus", "Monthly offers"] },
   { name := "Gold", level := 3, minSpentLifetime := 750, minSpentYear := 300,
     minVisitsLifetime := 15, minVisitsYear := 8, pointsMultiplier := 1.5,
     benefits := ["50% bonus points", "Free shipping", "Early access", "VIP support", "Birthday bonus"] },
   { name := "Platinum", level := 4, minSpentLifetime := 2000, minSpentYear := 800,
     minVisitsLifetime := 30, minVisitsYear := 15, pointsMultiplier := 2,
     benefits := ["Double points", "Exclusive events", "Personal concierge", "Premium support"] },
   { name := "Diamond", level := 5, minSpentLifetime := 5000, minSpentYear := 2000,
     minVisitsLifetime := 50, minVisitsYear := 25, pointsMultiplier := 3,
     benefits := ["Triple points", "Lifetime benefits", "Dedicated manager", "Annual gifts"] }]

/-- `TierCalculator.meetsRequirements`: all four thresholds are
inclusive (`≥`). -/
def meetsRequirements (metrics : CustomerMetrics) (rule : TierRule) : Bool :=
  decide (rule.minSpentLifetime ≤ metrics.totalSpent) &&
  decide (rule.minSpentYear ≤ metrics.spentThisYear) &&
  decide (rule.minVisitsLifetime ≤ metrics.totalVisits) &&
  decide (rule.minVisitsYear ≤ metrics.visitsThisYear)

/-- `TierCalculator.calculateTier`: rules sorted by descending level,
first rule whose requirements are met, else the last (lowest) rule.
`none` only for an empty rule list (where the Go code would panic). -/
def calculateTier (metrics : CustomerMetrics) (rules : List TierRule) :
    Option TierRule :=
  let sorted := rules.insertionSort fun a b => b.level ≤ a.level
  match sorted.find? fun rule => meetsRequirements metrics rule with
  | some rule => some rule
  | none => sorted.getLast?

/-- `TierCalculator.calculateNextTierProgress`: always walks the
default rules by ascending level; progress toward the next level
averages the annual-spend and annual-visit ratios, clamped at 1. -/
def calculateNextTierProgress (currentTier : TierRule)
    (metrics : CustomerMetrics) : String × ℚ :=
  let rules := GetDefaultTierRules.insertionSort fun a b => a.level ≤ b.level
  match rules.find? fun rule => decide (currentTier.level < rule.level) with
  | some nextTier =>
      let spentProgress : ℚ :=
        if 0 < nextTier.minSpentYear then metrics.spentThisYear / nextTier.minSpentYear
        else 0
      let visitsProgress : ℚ :=
        if 0 < nextTier.minVisitsYear then
          (metrics.visitsThisYear : ℚ) / (nextTier.minVisitsYear : ℚ)
        else 0
      let progress := (spentProgress + visitsProgress) / 2
      (nextTier.name, if 1 < progress then 1 else progress)
  | none => ("", 1)

/-- `TierCalculator.updateCustomerTier`: rolls `previous_tier` /
`current_tier` / `tier_since` only when the computed tier name
differs, then copies the metrics and tier-rule data. -/
def updateCustomerTier (current : CustomerTier) (newTier : TierRule)
    (metrics : CustomerMetrics) (now : ℤ) : CustomerTier :=
  let current' :=
    if current.currentTier ≠ newTier.name then
      { current with
          previousTier := current.currentTier
          currentTier := newTier.name
          tierSince := now }
    else current
  let next := calculateNextTierProgress newTier metrics
  { current' with
      totalSpent := metrics.totalSpent
      totalVisits := metrics.totalVisits
      spentThisYear := metrics.spentThisYear
      visitsThisYear := metrics.visitsThisYear
      spentThisMonth := metrics.spentThisMonth
      visitsThisMonth := metrics.visitsThisMonth
      lastTransaction := metrics.lastTransaction
      pointsMultiplier := newTier.pointsMultiplier
      benefits := newTier.benefits
      calculatedAt := now
      updatedAt := now
      nextTier := next.1
      progressToNext := next.2 }

/-- The fresh `CustomerTier` built by `ProcessCustomerMetrics` when the
customer has no stored tier record. -/
def freshCustomerTier (metrics : CustomerMetrics) (now : ℤ) : CustomerTier :=
  { orgID := metrics.orgID, locationID := metrics.locationID,
    customerID := metrics.customerID, currentTier := "Bronze",
    previousTier := "", tierSince := now, nextTier := "",
    progressToNext := 0, totalSpent := 0, totalVisits := 0,
    spentThisYear := 0, visitsThisYear := 0, spentThisMonth := 0,
    visitsThisMonth := 0, lastTransaction := 0, pointsMultiplier := 0,
    benefits := [], calculatedAt := 0, updatedAt := 0 }

/-- `TierCalculator.ProcessCustomerMetrics` (storage writes assumed to
succeed): computes the tier from the given rules against the stored
tier record (or a fresh Bronze record), saves the updated record and
emits a `TierUpgrade` exactly when, after the update,
`current_tier ≠ previous_tier` and `previous_tier ≠ ""`. `none` only
for an empty rule list (where the Go code would panic). -/
def ProcessCustomerMetrics (tierRules : List TierRule)
    (storedTier : Option CustomerTier) (metrics : CustomerMetrics)
    (now : ℤ) : Option (CustomerTier × Option TierUpgrade) :=
  let currentTier :=
    match storedTier with
    | some t => t
    | none => freshCustomerTier metrics now
  match calculateTier metrics tierRules with
  | none => none
  | some newTier =>
      let updated := updateCustomerTier currentTier newTier metrics now
      let upgrade :=
        if updated.currentTier ≠ updated.previousTier ∧ updated.previousTier ≠ "" then
          some { orgID := metrics.orgID
                 customerID := metrics.customerID
                 fromTier := updated.previousTier
                 toTier := updated.currentTier
                 triggeredBy := "transaction"
                 triggerValue := metrics.transactionAmount
                 upgradedAt := now
                 notified := false }
        else none
      some (updated, upgrade)

/-! ## Concrete inputs used by counterexamples and witnesses -/

/-- A points-accrual transfer request. -/
def reqPointsAccrual : CreateTransferRequest :=
  { orgID := "org1", customerID := "cust1", transactionType := "points_accrual",
    amount := 5, code := 1, reference := "ref1" }

/-- A stamps-accrual transfer request. -/
def reqStampsAccrual : CreateTransferRequest :=
  { orgID := "org1", customerID := "cust1", transactionType := "stamps_accrual",
    amount := 3, code := 2, reference := "ref2" }

/-- A points-redemption transfer request. -/
def reqPointsRedemption : CreateTransferRequest :=
  { orgID := "org1", customerID := "cust1", transactionType := "points_redemption",
    amount := 2, code := 1, reference := "ref3" }

/-- A raw `POST /transfers` body with a zero amount. -/
def rawZeroAmount : RawTransferRequest :=
  { orgID := some "org1", customerID := some "cust1",
    transactionType := some "points_accrual", amount := some 0,
    code := some 1, reference := some "ref1" }

/-- A raw `POST /transfers` body with a positive amount. -/
def rawPositiveAmount : RawTransferRequest :=
  { orgID := some "org1", customerID := some "cust1",
    transactionType := some "points_accrual", amount := some 5,
    code := some 1, reference := some "ref1" }

/-- Metrics of a customer whose computed default tier is Silver
(300 lifetime spend, 150 annual spend, 6 lifetime visits, 4 annual
visits: meets Silver, misses Gold). -/
def metricsSilver : CustomerMetrics :=
  { orgID := "org1", locationID := "", customerID := "cust1",
    totalSpent := 300, totalVisits := 6, spentThisYear := 150,
    visitsThisYear := 4, spentThisMonth := 0, visitsThisMonth := 0,
    lastTransaction := 0, transactionAmount := 20 }

/-- A stored tier record already at Silver, previously upgraded from
Bronze. -/
def storedSilverTier : CustomerTier :=
  { freshCustomerTier metricsSilver 0 with
      currentTier := "Silver"
      previousTier := "Bronze" }

/-- The default Silver tier rule (the second entry of
`GetDefaultTierRules`). -/
def silverRule : TierRule :=
  { name := "Silver", level := 2, minSpentLifetime := 250, minSpentYear := 100,
    minVisitsLifetime := 5, minVisitsYear := 3, pointsMultiplier := 1.25,
    benefits := ["25% bonus points", "Priority support", "Birthday bonus", "Monthly offers"] }

/-- A stored activity record with 3 transactions and 50 spent. -/
def activityBase : CustomerActivity :=
  { orgID := "org1", locationID := "", customerID := "cust1",
    transactionDate := 0, amount := 0, firstTransaction := 0,
    lastTransaction := 100, totalTransactions := 3, totalSpent := 50 }

/-- A stored activity record whose first transaction is at time 100. -/
def activityStored : CustomerActivity :=
  { orgID := "org1", locationID := "", customerID := "cust1",
    transactionDate := 0, amount := 0, firstTransaction := 100,
    lastTransaction := 200, totalTransactions := 4, totalSpent := 80 }

/-- A `birthday_bonus` loyalty action. -/
def birthdayAction : LoyaltyAction :=
  { actionType := "birthday_bonus", points := 10, stamps := 0,
    rewardID := "", reference := "ref9" }

/-- A `manual_points` loyalty action awarding 10 points. -/
def manualPointsAction : LoyaltyAction :=
  { actionType := "manual_points", points := 10, stamps := 0,
    rewardID := "", reference := "ref8" }

/-! ## Helper lemmas: distinctness of generated account IDs -/

lemma liability_ne_points (o o' c : String) :
    generateOrgLiabilityAccount o ≠ generateCustomerPointsAccount o' c := by
  intro h
  have h2 := congrArg String.data h
  simp [generateOrgLiabilityAccount, generateCustomerPointsAccount,
    String.data_append] at h2

lemma stamps_ne_liability (o c o' : String) :
    generateCustomerStampsAccount o c ≠ generateOrgLiabilityAccount o' := by
  intro h
  have h2 := congrArg String.data h
  simp [generateOrgLiabilityAccount, generateCustomerStampsAccount,
    String.data_append] at h2

lemma stamps_ne_points (o c o' c' : String) :
    generateCustomerStampsAccount o c ≠ generateCustomerPointsAccount o' c' := by
  intro h
  have h2 := congrArg String.data h
  simp [generateCustomerPointsAccount, generateCustomerStampsAccount,
    String.data_append] at h2

lemma transferDebit_ne_transferCredit (req : CreateTransferRequest) :
    transferDebitAccount req ≠ transferCreditAccount req := by
  unfold transferDebitAccount transferCreditAccount
  split
  · exact fun h => liability_ne_points req.orgID req.orgID req.customerID h.symm
  · exact liability_ne_points req.orgID req.orgID req.customerID

/-- The accounts map after `CreateTransfer`, at the debit account key. -/
lemma createTransfer_accounts_debit (s : LedgerState)
    (req : CreateTransferRequest) (tid : String) (now : ℕ) :
    debitsOf (((CreateTransfer s req tid now).1).accounts (transferDebitAccount req)) =
      addU64 (debitsOf (s.accounts (transferDebitAccount req))) req.amount ∧
    creditsOf (((CreateTransfer s req tid now).1).accounts (transferDebitAccount req)) =
      creditsOf (s.accounts (transferDebitAccount req)) := by
  have hne := transferDebit_ne_transferCredit req
  simp only [CreateTransfer, updateAccountBalance]
  simp only [if_neg hne]
  cases s.accounts (transferDebitAccount req) <;> simp [debitsOf, creditsOf]

lemma createTransfer_accounts_credit (s : LedgerState)
    (req : CreateTransferRequest) (tid : String) (now : ℕ) :
    creditsOf (((CreateTransfer s req tid now).1).accounts (transferCreditAccount req)) =
      addU64 (creditsOf (s.accounts (transferCreditAccount req))) req.amount ∧
    debitsOf (((CreateTransfer s req tid now).1).accounts (transferCreditAccount req)) =
      debitsOf (s.accounts (transferCreditAccount req)) := by
  have hne := transferDebit_ne_transferCredit req
  simp only [CreateTransfer, updateAccountBalance]
  simp only [if_pos rfl, if_neg (Ne.symm hne)]
  cases s.accounts (transferCreditAccount req) <;> simp [debitsOf, creditsOf]

lemma createTransfer_accounts_frame (s : LedgerState)
    (req : CreateTransferRequest) (tid : String) (now : ℕ) (k : String)
    (hkd : k ≠ transferDebitAccount req) (hkc : k ≠ transferCreditAccount req) :
    ((CreateTransfer s req tid now).1).accounts k = s.accounts k := by
  simp only [CreateTransfer, updateAccountBalance]
  simp only [if_neg hkc, if_neg hkd]

/-! ## Claim C1: double-entry frame effect of `CreateTransfer` -/

/-- **C1.** For every `CreateTransfer` call with amount `A`, exactly
one account (the debit account) has its `debits_posted` counter
increased by `A` and exactly one other account (the credit account)
has its `credits_posted` counter increased by `A`; the other counter
of each of those two accounts and the counters of every other account
are unchanged. (Stated under the hypothesis that the 64-bit counters
do not overflow.) -/
theorem createTransfer_double_entry (s : LedgerState)
    (req : CreateTransferRequest) (tid : String) (now : ℕ)
    (hd : debitsOf (s.accounts (transferDebitAccount req)) + req.amount < U64)
    (hc : creditsOf (s.accounts (transferCreditAccount req)) + req.amount < U64) :
    transferDebitAccount req ≠ transferCreditAccount req ∧
    debitsOf (((CreateTransfer s req tid now).1).accounts (transferDebitAccount req)) =
      debitsOf (s.accounts (transferDebitAccount req)) + req.amount ∧
    creditsOf (((CreateTransfer s req tid now).1).accounts (transferDebitAccount req)) =
      creditsOf (s.accounts (transferDebitAccount req)) ∧
    creditsOf (((CreateTransfer s req tid now).1).accounts (transferCreditAccount req)) =
      creditsOf (s.accounts (transferCreditAccount req)) + req.amount ∧
    debitsOf (((CreateTransfer s req tid now).1).accounts (transferCreditAccount req)) =
      debitsOf (s.accounts (transferCreditAccount req)) ∧
    ∀ k, k ≠ transferDebitAccount req → k ≠ transferCreditAccount req →
      ((CreateTransfer s req tid now).1).accounts k = s.accounts k := by
  obtain ⟨h1, h2⟩ := createTransfer_accounts_debit s req tid now
  obtain ⟨h3, h4⟩ := createTransfer_accounts_credit s req tid now
  refine ⟨transferDebit_ne_transferCredit req, ?_, h2, ?_, h4,
    fun k hkd hkc => createTransfer_accounts_frame s req tid now k hkd hkc⟩
  · rw [h1]; exact Nat.mod_eq_of_lt hd
  · rw [h3]; exact Nat.mod_eq_of_lt hc

/-- Witness for C1 at a concrete transfer on the empty repository. -/
theorem createTransfer_double_entry_witness :
    debitsOf (((CreateTransfer LedgerState.init reqPointsAccrual "t1" 0).1).accounts
        (transferDebitAccount reqPointsAccrual)) =
      debitsOf (LedgerState.init.accounts (transferDebitAccount reqPointsAccrual)) +
        reqPointsAccrual.amount ∧
    creditsOf (((CreateTransfer LedgerState.init reqPointsAccrual "t1" 0).1).accounts
        (transferCreditAccount reqPointsAccrual)) =
      creditsOf (LedgerState.init.accounts (transferCreditAccount reqPointsAccrual)) +
        reqPointsAccrual.amount :=
  ⟨(createTransfer_double_entry LedgerState.init reqPointsAccrual "t1" 0
      (by decide) (by decide)).2.1,
   (createTransfer_double_entry LedgerState.init reqPointsAccrual "t1" 0
      (by decide) (by decide)).2.2.2.1⟩

/-! ## Claim C2: transfer direction rule -/

/-- **C2, counterexample.** The claim says a `stamps_accrual` transfer
credits the customer's *stamps* account. In the code every
non-redemption transfer credits the customer's *points* account: after
a `stamps_accrual` transfer of 3 on the empty repository the stamps
account still does not exist, while the points account was credited
by 3. -/
theorem stamps_accrual_credits_points_account :
    reqStampsAccrual.transactionType = "stamps_accrual" ∧
    ((CreateTransfer LedgerState.init reqStampsAccrual "t1" 0).1.accounts
      (generateCustomerStampsAccount "org1" "cust1")) = none ∧
    creditsOf ((CreateTransfer LedgerState.init reqStampsAccrual "t1" 0).1.accounts
      (generateCustomerPointsAccount "org1" "cust1")) = 3 := by
  decide

/-- **C2, amended.** For every `CreateTransfer` request: unless the
transaction type is exactly `points_redemption` or
`stamps_redemption`, the org's liability account is debited and the
customer's *points* account is credited (uint64 addition), regardless
of whether the transfer is a points or a stamps transfer; for the two
exact redemption types the direction is reversed (still using the
points account). The customer's stamps account is never touched. -/
theorem createTransfer_direction (s : LedgerState)
    (req : CreateTransferRequest) (tid : String) (now : ℕ) :
    (¬(req.transactionType = "points_redemption" ∨
        req.transactionType = "stamps_redemption") →
      debitsOf (((CreateTransfer s req tid now).1).accounts
          (generateOrgLiabilityAccount req.orgID)) =
        addU64 (debitsOf (s.accounts (generateOrgLiabilityAccount req.orgID)))
          req.amount ∧
      creditsOf (((CreateTransfer s req tid now).1).accounts
          (generateCustomerPointsAccount req.orgID req.customerID)) =
        addU64 (creditsOf (s.accounts
          (generateCustomerPointsAccount req.orgID req.customerID))) req.amount) ∧
    ((req.transactionType = "points_redemption" ∨
        req.transactionType = "stamps_redemption") →
      debitsOf (((CreateTransfer s req tid now).1).accounts
          (generateCustomerPointsAccount req.orgID req.customerID)) =
        addU64 (debitsOf (s.accounts
          (generateCustomerPointsAccount req.orgID req.customerID))) req.amount ∧
      creditsOf (((CreateTransfer s req tid now).1).accounts
          (generateOrgLiabilityAccount req.orgID)) =
        addU64 (creditsOf (s.accounts (generateOrgLiabilityAccount req.orgID)))
          req.amount) ∧
    ((CreateTransfer s req tid now).1).accounts
        (generateCustomerStampsAccount req.orgID req.customerID) =
      s.accounts (generateCustomerStampsAccount req.orgID req.customerID) := by
  refine ⟨fun h => ?_, fun h => ?_, ?_⟩
  · have hdeb : transferDebitAccount req = generateOrgLiabilityAccount req.orgID := by
      unfold transferDebitAccount; rw [if_neg h]
    have hcred : transferCreditAccount req =
        generateCustomerPointsAccount req.orgID req.customerID := by
      unfold transferCreditAccount; rw [if_neg h]
    constructor
    · have := (createTransfer_accounts_debit s req tid now).1
      rwa [hdeb] at this
    · have := (createTransfer_accounts_credit s req tid now).1
      rwa [hcred] at this
  · have hdeb : transferDebitAccount req =
        generateCustomerPointsAccount req.orgID req.customerID := by
      unfold transferDebitAccount; rw [if_pos h]
    have hcred : transferCreditAccount req = generateOrgLiabilityAccount req.orgID := by
      unfold transferCreditAccount; rw [if_pos h]
    constructor
    · have := (createTransfer_accounts_debit s req tid now).1
      rwa [hdeb] at this
    · have := (createTransfer_accounts_credit s req tid now).1
      rwa [hcred] at this
  · refine createTransfer_accounts_frame s req tid now _ ?_ ?_
    · unfold transferDebitAccount
      split
      · exact stamps_ne_points req.orgID req.customerID req.orgID req.customerID
      · exact stamps_ne_liability req.orgID req.customerID req.orgID
    · unfold transferCreditAccount
      split
      · exact stamps_ne_liability req.orgID req.customerID req.orgID
      · exact stamps_ne_points req.orgID req.customerID req.orgID req.customerID

/-- Witness for the amended C2 at concrete accrual and redemption
transfers on the empty repository. -/
theorem createTransfer_direction_witness :
    (debitsOf (((CreateTransfer LedgerState.init reqStampsAccrual "t1" 0).1).accounts
        (generateOrgLiabilityAccount reqStampsAccrual.orgID)) =
      addU64 (debitsOf (LedgerState.init.accounts
        (generateOrgLiabilityAccount reqStampsAccrual.orgID))) reqStampsAccrual.amount ∧
     creditsOf (((CreateTransfer LedgerState.init reqStampsAccrual "t1" 0).1).accounts
        (generateCustomerPointsAccount reqStampsAccrual.orgID reqStampsAccrual.customerID)) =
      addU64 (creditsOf (LedgerState.init.accounts
        (generateCustomerPointsAccount reqStampsAccrual.orgID reqStampsAccrual.customerID)))
        reqStampsAccrual.amount) ∧
    (debitsOf (((CreateTransfer LedgerState.init reqPointsRedemption "t2" 0).1).accounts
        (generateCustomerPointsAccount reqPointsRedemption.orgID reqPointsRedemption.customerID)) =
      addU64 (debitsOf (LedgerState.init.accounts
        (generateCustomerPointsAccount reqPointsRedemption.orgID reqPointsRedemption.customerID)))
        reqPointsRedemption.amount ∧
     creditsOf (((CreateTransfer LedgerState.init reqPointsRedemption "t2" 0).1).accounts
        (generateOrgLiabilityAccount reqPointsRedemption.orgID)) =
      addU64 (creditsOf (LedgerState.init.accounts
        (generateOrgLiabilityAccount reqPointsRedemption.orgID)))
        reqPointsRedemption.amount) :=
  ⟨(createTransfer_direction LedgerState.init reqStampsAccrual "t1" 0).1 (by decide),
   (createTransfer_direction LedgerState.init reqPointsRedemption "t2" 0).2.1 (by decide)⟩

/-! ## Claim C10: `GetBalance` on unknown customers -/

/-- **C10.** `GetBalance` always succeeds; its balances are the
unsigned 64-bit differences `credits_posted - debits_posted` of the
customer's points and stamps accounts, an absent account contributing
zero — so a pair with no points and no stamps account gets
`points = 0, stamps = 0`, indistinguishable from a known customer with
zero balances. -/
theorem getBalance_unknown_is_zero (s : LedgerState) (orgID customerID : String) :
    (s.accounts (generateCustomerPointsAccount orgID customerID) = none →
     s.accounts (generateCustomerStampsAccount orgID customerID) = none →
     GetBalance s orgID customerID = Except.ok (0, 0)) ∧
    GetBalance s orgID customerID = Except.ok
      (subU64 (creditsOf (s.accounts (generateCustomerPointsAccount orgID customerID)))
        (debitsOf (s.accounts (generateCustomerPointsAccount orgID customerID))),
       subU64 (creditsOf (s.accounts (generateCustomerStampsAccount orgID customerID)))
        (debitsOf (s.accounts (generateCustomerStampsAccount orgID customerID)))) := by
  have hzero : subU64 0 0 = 0 := by simp [subU64]
  constructor
  · intro hp hs
    simp [GetBalance, hp, hs]
  · cases hp : s.accounts (generateCustomerPointsAccount orgID customerID) <;>
      cases hs : s.accounts (generateCustomerStampsAccount orgID customerID) <;>
      simp [GetBalance, hp, hs, debitsOf, creditsOf, hzero]

/-- Witness for C10 on the empty repository. -/
theorem getBalance_unknown_is_zero_witness :
    GetBalance LedgerState.init "org1" "cust1" = Except.ok (0, 0) :=
  (getBalance_unknown_is_zero LedgerState.init "org1" "cust1").1 rfl rfl

/-! ## Claim C3: when a `TierUpgrade` record is created -/

/-- **C3, counterexample.** A customer already at Silver (previously
upgraded from Bronze) whose event again computes Silver: the computed
tier equals the existing `current_tier`, yet `ProcessCustomerMetrics`
creates a (Bronze → Silver) `TierUpgrade` record, because the saved
condition compares `current_tier` against the *stale* `previous_tier`
instead of against the tier before the event. -/
theorem tier_upgrade_without_change :
    (calculateTier metricsSilver GetDefaultTierRules).map TierRule.name =
      some storedSilverTier.currentTier ∧
    (ProcessCustomerMetrics GetDefaultTierRules (some storedSilverTier)
        metricsSilver 0).map
      (fun p => p.2.map fun u => (u.fromTier, u.toTier)) =
      some (some ("Bronze", "Silver")) := by
  decide


lemma isSome_ite {α : Type} (c : Prop) [Decidable c] (a : α) :
    ((if c then some a else none).isSome = true) ↔ c := by
  split <;> simp_all

lemma updateCustomerTier_tiers (current : CustomerTier) (newTier : TierRule)
    (metrics : CustomerMetrics) (now : ℤ) :
    ((updateCustomerTier current newTier metrics now).currentTier,
     (updateCustomerTier current newTier metrics now).previousTier) =
      if current.currentTier ≠ newTier.name then (newTier.name, current.currentTier)
      else (current.currentTier, current.previousTier) := by
  simp only [updateCustomerTier]
  split <;> rfl

lemma processMetrics_some (tierRules : List TierRule) (t : CustomerTier)
    (metrics : CustomerMetrics) (now : ℤ) (newTier : TierRule)
    (hcalc : calculateTier metrics tierRules = some newTier) :
    ProcessCustomerMetrics tierRules (some t) metrics now =
      some (updateCustomerTier t newTier metrics now,
        if (updateCustomerTier t newTier metrics now).currentTier ≠
            (updateCustomerTier t newTier metrics now).previousTier ∧
            (updateCustomerTier t newTier metrics now).previousTier ≠ "" then
          some { orgID := metrics.orgID
                 customerID := metrics.customerID
                 fromTier := (updateCustomerTier t newTier metrics now).previousTier
                 toTier := (updateCustomerTier t newTier metrics now).currentTier
                 triggeredBy := "transaction"
                 triggerValue := metrics.transactionAmount
                 upgradedAt := now
                 notified := false }
        else none) := by
  rw [ProcessCustomerMetrics.eq_def]
  rw [hcalc]

/-- **C3, amended.** For a stored tier record `t`, processing an event
whose computed tier rule is `newTier` creates a `TierUpgrade` record
iff either the computed tier name differs from `t.current_tier` and
`t.current_tier` is nonempty, or the computed tier equals
`t.current_tier` but the previously recorded `previous_tier` differs
from it and is nonempty (a left-over of an earlier change) — so an
upgrade record can be created by an event that changes no tier. -/
theorem processMetrics_upgrade_iff (tierRules : List TierRule)
    (t : CustomerTier) (metrics : CustomerMetrics) (now : ℤ)
    (newTier : TierRule)
    (hcalc : calculateTier metrics tierRules = some newTier) :
    ((ProcessCustomerMetrics tierRules (some t) metrics now).map
        fun p => p.2.isSome) = some true ↔
      ((newTier.name ≠ t.currentTier ∧ t.currentTier ≠ "") ∨
       (newTier.name = t.currentTier ∧ t.currentTier ≠ t.previousTier ∧
        t.previousTier ≠ "")) := by
  rw [processMetrics_some tierRules t metrics now newTier hcalc]
  rw [show ∀ x : CustomerTier × Option TierUpgrade, (some x).map (fun p => p.2.isSome) = some x.2.isSome from fun x => rfl]
  rw [Option.some_inj]
  rw [isSome_ite]
  have htiers := updateCustomerTier_tiers t newTier metrics now
  by_cases hc : t.currentTier = newTier.name
  · rw [if_neg (by simpa using hc)] at htiers
    have h1 : (updateCustomerTier t newTier metrics now).currentTier = t.currentTier := by
      exact congrArg Prod.fst htiers
    have h2 : (updateCustomerTier t newTier metrics now).previousTier = t.previousTier := by
      exact congrArg Prod.snd htiers
    rw [h1, h2]
    constructor
    · intro h
      exact Or.inr ⟨hc.symm, h.1, h.2⟩
    · rintro (⟨hne, _⟩ | ⟨_, hne, hemp⟩)
      · exact absurd hc.symm hne
      · exact ⟨hne, hemp⟩
  · rw [if_pos hc] at htiers
    have h1 : (updateCustomerTier t newTier metrics now).currentTier = newTier.name := by
      exact congrArg Prod.fst htiers
    have h2 : (updateCustomerTier t newTier metrics now).previousTier = t.currentTier := by
      exact congrArg Prod.snd htiers
    rw [h1, h2]
    constructor
    · intro h
      exact Or.inl h
    · rintro (⟨hne, hemp⟩ | ⟨heq, _, _⟩)
      · exact ⟨hne, hemp⟩
      · exact absurd heq.symm hc

/-- Witness for the amended C3: the concrete no-change event for the
Silver customer does create an upgrade record. -/
theorem processMetrics_upgrade_iff_witness :
    ((ProcessCustomerMetrics GetDefaultTierRules (some storedSilverTier)
        metricsSilver 0).map fun p => p.2.isSome) = some true :=
  (processMetrics_upgrade_iff GetDefaultTierRules storedSilverTier metricsSilver 0
    silverRule (by rfl)).mpr (by decide)

/-! ## Claim C4: monotonicity of the stored `CustomerActivity` -/

/-- **C4, counterexample.** Two violations of the claim on concrete
inputs. A processed transaction event with a negative payload amount
(the consumer applies no sign check) decreases `total_spent`, both in
the in-memory record and in the stored record: from 50 to 40 here.
And an out-of-order event whose timestamp (50) predates the stored
`first_transaction` (100) leaves the stored record with
`last_transaction < first_transaction`, because the storage writes
`first_transaction` only under `$setOnInsert`, never the in-memory
pull-back. -/
theorem totalSpent_decreases_on_negative_amount :
    (updateCustomerActivity "org1" "cust1" (some activityBase) 200 (-10)).totalSpent <
      activityBase.totalSpent ∧
    (processMessageStoredActivity "org1" "cust1" (some activityBase) 200 (-10)).totalSpent <
      activityBase.totalSpent ∧
    (processMessageStoredActivity "org1" "cust1" (some activityStored) 50 10).lastTransaction <
      (processMessageStoredActivity "org1" "cust1" (some activityStored) 50 10).firstTransaction := by
  refine ⟨?_, ?_, ?_⟩ <;>
    norm_num [processMessageStoredActivity, UpdateCustomerActivity,
      updateCustomerActivity, activityBase, activityStored]

/-- **C4, amended.** For the stored `CustomerActivity` record:
`total_transactions` grows by exactly one per processed event (so it
never decreases); `total_spent` never decreases provided the event's
amount is nonnegative (a negative amount decreases it);
`first_transaction` is fixed when the record is inserted (equal to
`last_transaction` at that point) and never changes on later updates,
so `first_transaction ≤ last_transaction` holds after any update
whose event timestamp is not earlier than the stored
`first_transaction` — but an out-of-order earlier event leaves the
stored record with `first_transaction > last_transaction`. -/
theorem storedActivity_invariants (orgID customerID : String)
    (st : CustomerActivity) (ts : ℤ) (amt : ℚ) :
    ((processMessageStoredActivity orgID customerID (some st) ts amt).totalTransactions =
      st.totalTransactions + 1) ∧
    (0 ≤ amt → st.totalSpent ≤
      (processMessageStoredActivity orgID customerID (some st) ts amt).totalSpent) ∧
    ((processMessageStoredActivity orgID customerID (some st) ts amt).firstTransaction =
      st.firstTransaction) ∧
    ((processMessageStoredActivity orgID customerID (some st) ts amt).lastTransaction = ts) ∧
    ((processMessageStoredActivity orgID customerID none ts amt).firstTransaction =
      (processMessageStoredActivity orgID customerID none ts amt).lastTransaction) ∧
    (st.firstTransaction ≤ ts →
      (processMessageStoredActivity orgID customerID (some st) ts amt).firstTransaction ≤
        (processMessageStoredActivity orgID customerID (some st) ts amt).lastTransaction) := by
  refine ⟨?_, fun h => ?_, ?_, ?_, ?_, fun h => ?_⟩
  · unfold processMessageStoredActivity UpdateCustomerActivity updateCustomerActivity
    dsimp only
    split <;> rfl
  · unfold processMessageStoredActivity UpdateCustomerActivity updateCustomerActivity
    dsimp only
    split <;> exact le_add_of_nonneg_right h
  · rfl
  · unfold processMessageStoredActivity UpdateCustomerActivity updateCustomerActivity
    dsimp only
    split <;> rfl
  · unfold processMessageStoredActivity UpdateCustomerActivity updateCustomerActivity
    dsimp only
    split <;> rfl
  · have h1 : (processMessageStoredActivity orgID customerID (some st) ts amt).firstTransaction =
        st.firstTransaction := rfl
    have h2 : (processMessageStoredActivity orgID customerID (some st) ts amt).lastTransaction = ts := by
      unfold processMessageStoredActivity UpdateCustomerActivity updateCustomerActivity
      dsimp only
      split <;> rfl
    rw [h1, h2]
    exact h

/-- Witness for the amended C4: a concrete in-order,
nonnegative-amount update keeps `total_spent` non-decreasing and
`first ≤ last` on the stored record. -/
theorem storedActivity_invariants_witness :
    (activityBase.totalSpent ≤
      (processMessageStoredActivity "org1" "cust1" (some activityBase) 200 10).totalSpent) ∧
    ((processMessageStoredActivity "org1" "cust1" (some activityBase) 200 10).firstTransaction ≤
      (processMessageStoredActivity "org1" "cust1" (some activityBase) 200 10).lastTransaction) :=
  ⟨(storedActivity_invariants "org1" "cust1" activityBase 200 10).2.1 (by norm_num),
   (storedActivity_invariants "org1" "cust1" activityBase 200 10).2.2.2.2.2 (by decide)⟩

/-! ## Claim C5: points and stamps earned for a POS transaction -/

/-- **C5.** For a POS transaction of amount `a` against an org with
`points_per_dollar = p` and `stamps_per_visit = s`: the computed
`points_earned` is `⌊a * p⌋` when `p > 0` and `0` when `p ≤ 0`, and
the computed `stamps_earned` is `s`, independent of `a`. -/
theorem calculatePoints_and_stamps (amount : ℚ) (org : OrgSettings) :
    (0 < org.pointsPerDollar →
      (posEarnedQuantities amount org).1 = ⌊amount * org.pointsPerDollar⌋) ∧
    (org.pointsPerDollar ≤ 0 → (posEarnedQuantities amount org).1 = 0) ∧
    (posEarnedQuantities amount org).2 = org.stampsPerVisit := by
  refine ⟨fun h => ?_, fun h => ?_, rfl⟩
  · unfold posEarnedQuantities calculatePoints
    rw [if_neg (not_le.mpr h)]
  · unfold posEarnedQuantities calculatePoints
    rw [if_pos h]

/-- Witness for C5: a $50 transaction at 2 points per dollar earns 100
points; a non-positive rate earns 0; stamps are the flat per-visit
value. -/
theorem calculatePoints_and_stamps_witness :
    (posEarnedQuantities 50 { pointsPerDollar := 2, stampsPerVisit := 1 }).1 = 100 ∧
    (posEarnedQuantities 50 { pointsPerDollar := -1, stampsPerVisit := 1 }).1 = 0 ∧
    (posEarnedQuantities 50 { pointsPerDollar := 2, stampsPerVisit := 1 }).2 = 1 := by
  refine ⟨?_, ?_, ?_⟩
  · have h := (calculatePoints_and_stamps 50
      { pointsPerDollar := 2, stampsPerVisit := 1 }).1 (by norm_num)
    rw [h]
    norm_num
  · exact (calculatePoints_and_stamps 50
      { pointsPerDollar := -1, stampsPerVisit := 1 }).2.1 (by norm_num)
  · exact (calculatePoints_and_stamps 50
      { pointsPerDollar := 2, stampsPerVisit := 1 }).2.2

/-! ## Claim C6: validation of non-positive transfer amounts -/

lemma bind_error_of_nonpos (raw : RawTransferRequest)
    (h : raw.amount.getD 0 ≤ 0) :
    ∃ e, bindCreateTransferRequest raw = Except.error e := by
  unfold bindCreateTransferRequest
  dsimp only
  split_ifs with h1 h2 h3 h4 h5
  · exact ⟨_, rfl⟩
  · exact ⟨_, rfl⟩
  · exact ⟨_, rfl⟩
  · exact ⟨_, rfl⟩
  · exact ⟨_, rfl⟩
  · exfalso
    simp only [not_or, not_lt] at h1
    omega

lemma bind_ok_amount_pos (raw : RawTransferRequest)
    (req : CreateTransferRequest)
    (hok : bindCreateTransferRequest raw = Except.ok req) :
    0 < req.amount := by
  unfold bindCreateTransferRequest at hok
  dsimp only at hok
  split_ifs at hok with h1 h2 h3 h4 h5
  cases hok
  dsimp only
  omega

/-- **C6.** A `POST /transfers` body whose JSON amount is zero,
negative or absent is rejected with HTTP 400 before any repository
call — the repository state, and with it every account counter, is
unchanged — and whenever the handler answers 201 the single transfer
it applied has a strictly positive amount. -/
theorem createTransferHandler_validates (s : LedgerState)
    (raw : RawTransferRequest) (tid : String) (now : ℕ) :
    (raw.amount.getD 0 ≤ 0 →
      (CreateTransferHandler s raw tid now).2 = 400 ∧
      (CreateTransferHandler s raw tid now).1 = s) ∧
    ((CreateTransferHandler s raw tid now).2 = 201 →
      ∃ t, (CreateTransferHandler s raw tid now).1.transfers = t :: s.transfers ∧
        0 < t.amount) := by
  constructor
  · intro h
    obtain ⟨e, he⟩ := bind_error_of_nonpos raw h
    unfold CreateTransferHandler
    rw [he]
    exact ⟨rfl, rfl⟩
  · intro h201
    cases hbind : bindCreateTransferRequest raw with
    | error e =>
        unfold CreateTransferHandler at h201
        rw [hbind] at h201
        dsimp only at h201
        exact absurd h201 (by decide)
    | ok req =>
        unfold CreateTransferHandler
        rw [hbind]
        exact ⟨_, rfl, bind_ok_amount_pos raw req hbind⟩

/-- Witness for C6: the concrete zero-amount body is answered with 400
and the empty repository is unchanged. -/
theorem createTransferHandler_validates_witness :
    (CreateTransferHandler LedgerState.init rawZeroAmount "t1" 0).2 = 400 ∧
    (CreateTransferHandler LedgerState.init rawZeroAmount "t1" 0).1 = LedgerState.init :=
  (createTransferHandler_validates LedgerState.init rawZeroAmount "t1" 0).1 (by decide)

/-! ## Claim C7: wildcard topic matching -/

/-- **C7, counterexample.** The topic `orgA.extra.pos.transaction`
ends in `.pos.transaction` but has four dot-separated segments, so the
three-segment pattern `*.pos.transaction` does not match it; and the
pattern `*` fails to match the two-segment topic `a.b`. -/
theorem wildcard_requires_equal_segment_count :
    "orgA.extra.pos.transaction" = "orgA.extra" ++ ".pos.transaction" ∧
    shouldProcessTopic "orgA.extra.pos.transaction" ["*.pos.transaction"] = false ∧
    shouldProcessTopic "a.b" ["*"] = false := by
  decide

lemma matchSegments_star_pos_transaction (l : List String) :
    matchSegments ["*", "pos", "transaction"] l = true ↔
      ∃ s, l = [s, "pos", "transaction"] := by
  rcases l with _ | ⟨a, _ | ⟨b, _ | ⟨c, _ | ⟨d, l⟩⟩⟩⟩ <;> simp [matchSegments]
  constructor <;> exact fun h => ⟨h.1.symm, h.2.symm⟩

lemma matchSegments_star (l : List String) :
    matchSegments ["*"] l = true ↔ ∃ s, l = [s] := by
  rcases l with _ | ⟨a, _ | ⟨b, l⟩⟩ <;> simp [matchSegments]

/-- **C7, amended.** The subscription matcher accepts a topic under
`*.pos.transaction` iff the topic has exactly three dot-separated
segments whose second and third are `pos` and `transaction` — a topic
ending in `.pos.transaction` with more segments is not matched — and
`*` alone matches exactly the topics with a single segment (no dot),
not every topic. -/
theorem shouldProcessTopic_wildcards (topic : String) :
    (shouldProcessTopic topic ["*.pos.transaction"] = true ↔
      ∃ seg, splitDot topic = [seg, "pos", "transaction"]) ∧
    (shouldProcessTopic topic ["*"] = true ↔ ∃ seg, splitDot topic = [seg]) := by
  constructor
  · have h1 : shouldProcessTopic topic ["*.pos.transaction"] =
        patternMatchesTopic "*.pos.transaction" topic := by
      simp [shouldProcessTopic]
    rw [h1]
    unfold patternMatchesTopic
    rw [if_pos (by decide)]
    have h2 : splitDot "*.pos.transaction" = ["*", "pos", "transaction"] := by decide
    rw [h2]
    exact matchSegments_star_pos_transaction _
  · have h1 : shouldProcessTopic topic ["*"] = patternMatchesTopic "*" topic := by
      simp [shouldProcessTopic]
    rw [h1]
    unfold patternMatchesTopic
    rw [if_pos (by decide)]
    have h2 : splitDot "*" = ["*"] := by decide
    rw [h2]
    exact matchSegments_star _

/-- Witness for the amended C7: the three-segment topic
`brand123.pos.transaction` is matched by `*.pos.transaction`. -/
theorem shouldProcessTopic_wildcards_witness :
    shouldProcessTopic "brand123.pos.transaction" ["*.pos.transaction"] = true :=
  (shouldProcessTopic_wildcards "brand123.pos.transaction").1.mpr
    ⟨"brand123", by decide⟩

/-! ## Claim C8: loyalty actions recognized by the processor -/

/-- **C8, counterexample.** `birthday_bonus` is one of the four action
types the claim says succeed with one transfer, but the processor's
`switch` only recognizes `manual_points` and `bonus_stamps`:
a `birthday_bonus` action falls to the default branch, yielding a
failed result and no ledger transfer. -/
theorem birthday_bonus_fails :
    (processLoyaltyAction birthdayAction).1.success = false ∧
    (processLoyaltyAction birthdayAction).1.error =
      "unknown loyalty action type: birthday_bonus" ∧
    (processLoyaltyAction birthdayAction).2 = [] := by
  decide

/-- **C8, amended.** Only `manual_points` and `bonus_stamps` are
recognized: each succeeds, posting a single transfer of the stated
quantity when it is positive and no transfer otherwise; every other
action type — including `birthday_bonus` and `referral_bonus` — yields
a failed result and no transfer. -/
theorem processLoyaltyAction_cases (action : LoyaltyAction) :
    (action.actionType = "manual_points" →
      (processLoyaltyAction action).1.success = true ∧
      (0 < action.points →
        (processLoyaltyAction action).2 =
          [{ transactionType := "points_accrual", amount := action.points.toNat,
             code := 1, reference := action.reference }]) ∧
      (action.points ≤ 0 → (processLoyaltyAction action).2 = [])) ∧
    (action.actionType = "bonus_stamps" →
      (processLoyaltyAction action).1.success = true ∧
      (0 < action.stamps →
        (processLoyaltyAction action).2 =
          [{ transactionType := "stamps_accrual", amount := action.stamps.toNat,
             code := 2, reference := action.reference }]) ∧
      (action.stamps ≤ 0 → (processLoyaltyAction action).2 = [])) ∧
    (action.actionType ≠ "manual_points" → action.actionType ≠ "bonus_stamps" →
      (processLoyaltyAction action).1.success = false ∧
      (processLoyaltyAction action).2 = []) := by
  refine ⟨fun h => ?_, fun h => ?_, fun h1 h2 => ?_⟩
  · unfold processLoyaltyAction
    rw [if_pos h]
    by_cases hp : 0 < action.points
    · rw [if_pos hp]
      exact ⟨rfl, fun _ => rfl, fun hle => absurd hp (not_lt.mpr hle)⟩
    · rw [if_neg hp]
      exact ⟨rfl, fun hlt => absurd hlt hp, fun _ => rfl⟩
  · unfold processLoyaltyAction
    have hne : action.actionType ≠ "manual_points" := by rw [h]; decide
    rw [if_neg hne, if_pos h]
    by_cases hs : 0 < action.stamps
    · rw [if_pos hs]
      exact ⟨rfl, fun _ => rfl, fun hle => absurd hs (not_lt.mpr hle)⟩
    · rw [if_neg hs]
      exact ⟨rfl, fun hlt => absurd hlt hs, fun _ => rfl⟩
  · unfold processLoyaltyAction
    rw [if_neg h1, if_neg h2]
    exact ⟨rfl, rfl⟩

/-- Witness for the amended C8: a concrete `manual_points` action
succeeds with one points transfer; the concrete `birthday_bonus`
action fails. -/
theorem processLoyaltyAction_cases_witness :
    (processLoyaltyAction manualPointsAction).1.success = true ∧
    (processLoyaltyAction manualPointsAction).2 =
      [{ transactionType := "points_accrual", amount := 10, code := 1,
         reference := "ref8" }] ∧
    (processLoyaltyAction birthdayAction).1.success = false := by
  have h1 := (processLoyaltyAction_cases manualPointsAction).1 (by decide)
  have h2 := (processLoyaltyAction_cases birthdayAction).2.2 (by decide) (by decide)
  exact ⟨h1.1, by rw [h1.2.1 (by decide)]; decide, h2.1⟩

/-! ## Claim C9: quintile boundaries are five ascending values -/

lemma quintileIndex_lt (n i : ℕ) (hn : 1 ≤ n) : quintileIndex n i < n := by
  unfold quintileIndex
  split <;> omega

lemma quintileIndex_mono (n i j : ℕ) (hij : i ≤ j) :
    quintileIndex n i ≤ quintileIndex n j := by
  have hceil : (⌈((i : ℚ) + 1) * 0.2 * (n : ℚ)⌉ : ℤ) ≤
      ⌈((j : ℚ) + 1) * 0.2 * (n : ℚ)⌉ := by
    apply Int.ceil_le_ceil
    have hij' : ((i : ℚ) + 1) ≤ (j : ℚ) + 1 := by
      have : (i : ℚ) ≤ j := by exact_mod_cast hij
      linarith
    have h02 : (0 : ℚ) ≤ 0.2 := by norm_num
    have hn0 : (0 : ℚ) ≤ (n : ℚ) := by positivity
    exact mul_le_mul_of_nonneg_right (mul_le_mul_of_nonneg_right hij' h02) hn0
  unfold quintileIndex
  split <;> split <;> omega

lemma getD_sorted_mono {α : Type} [LinearOrder α] {l : List α}
    (hl : List.Sorted (· ≤ ·) l) (d : α) {i j : ℕ} (hij : i ≤ j)
    (hj : j < l.length) : l.getD i d ≤ l.getD j d := by
  have hi : i < l.length := lt_of_le_of_lt hij hj
  rw [List.getD_eq_getElem l d hi, List.getD_eq_getElem l d hj]
  have h : l.get ⟨i, hi⟩ ≤ l.get ⟨j, hj⟩ := hl.rel_get_of_le (Fin.mk_le_mk.mpr hij)
  simpa using h

lemma calculateQuintileList_length {α : Type} [LinearOrder α] (d : α)
    (vs : List α) : (calculateQuintileList d vs).length = 5 := by
  unfold calculateQuintileList
  simp

lemma calculateQuintileList_chain {α : Type} [LinearOrder α] (d : α)
    (vs : List α) : List.Chain' (· ≤ ·) (calculateQuintileList d vs) := by
  unfold calculateQuintileList
  rw [List.chain'_iff_get]
  intro k hk
  have hsorted : List.Sorted (· ≤ ·) (vs.insertionSort (· ≤ ·)) :=
    List.sorted_insertionSort _ _
  simp only [List.get_eq_getElem, List.getElem_map, List.getElem_range]
  by_cases hn : (vs.insertionSort (· ≤ ·)).length = 0
  · rw [List.length_eq_zero.mp hn]
    simp [List.getD]
  · exact getD_sorted_mono hsorted d (quintileIndex_mono _ k (k + 1) (Nat.le_succ k))
      (quintileIndex_lt _ _ (Nat.one_le_iff_ne_zero.mpr hn))

/-- **C9.** `CalculateQuintilesForOrg` returns exactly five boundary
values in each of the three dimensions, and within each dimension
every boundary is `≥` the previous one; with fewer than 5 activities
it returns the fixed default quintiles (themselves five ascending
values per dimension). -/
theorem calculateQuintilesForOrg_monotone (orgID : String)
    (activities : List CustomerActivity) (now : ℤ) :
    ((CalculateQuintilesForOrg orgID activities now).recencyQuintiles.length = 5 ∧
     List.Chain' (· ≤ ·)
       (CalculateQuintilesForOrg orgID activities now).recencyQuintiles) ∧
    ((CalculateQuintilesForOrg orgID activities now).frequencyQuintiles.length = 5 ∧
     List.Chain' (· ≤ ·)
       (CalculateQuintilesForOrg orgID activities now).frequencyQuintiles) ∧
    ((CalculateQuintilesForOrg orgID activities now).monetaryQuintiles.length = 5 ∧
     List.Chain' (· ≤ ·)
       (CalculateQuintilesForOrg orgID activities now).monetaryQuintiles) ∧
    (activities.length < 5 →
      CalculateQuintilesForOrg orgID activities now = getDefaultQuintiles orgID now) := by
  unfold CalculateQuintilesForOrg
  by_cases h5 : activities.length < 5
  · rw [if_pos h5]
    refine ⟨⟨rfl, ?_⟩, ⟨rfl, ?_⟩, ⟨rfl, ?_⟩, fun _ => rfl⟩ <;>
      norm_num [getDefaultQuintiles, List.chain'_cons]
  · rw [if_neg h5]
    dsimp only
    refine ⟨⟨?_, ?_⟩, ⟨?_, ?_⟩, ⟨?_, ?_⟩, fun h => absurd h h5⟩
    · exact calculateQuintileList_length 0 _
    · exact calculateQuintileList_chain 0 _
    · exact calculateQuintileList_length 0 _
    · exact calculateQuintileList_chain 0 _
    · exact calculateQuintileList_length 0 _
    · exact calculateQuintileList_chain 0 _

/-- Witness for C9: an org with no recorded activities gets the
default quintiles. -/
theorem calculateQuintilesForOrg_monotone_witness :
    CalculateQuintilesForOrg "org1" [] 0 = getDefaultQuintiles "org1" 0 :=
  (calculateQuintilesForOrg_monotone "org1" [] 0).2.2.2 (by decide)
